import Mathlib

/-
  Verification development for the warp-controller core:
  condition evaluation engine (src/util/condition.rs) and the
  job lifecycle callback handler (src/contract.rs, reply) with its
  pending/finished job stores (src/state.rs).

  Machine integers are modelled as Nat/Int with explicit clamping where
  the source uses saturating operations; fallible code returns Except;
  an unwrap on a checked operation that returned None, and arithmetic
  overflow under overflow checks, are modelled as a distinct panic fault.
-/

set_option maxRecDepth 4000

namespace Warp

/-- Contract error type, modelled from the variants used in the sources
(crate ContractError itself lives outside src): Std wraps a host StdError
message, the others are the unit variants referenced by the core. -/
inductive ContractError where
  | std (msg : String)
  | unauthorized
  | decodeError
  | jobAlreadyFinished
  | accountAlreadyExists
  | creationFeeTooHigh
  | cancellationFeeTooHigh
  deriving DecidableEq, Repr

/-- Evaluation fault: either a typed contract error propagated through
Result, or an unrecoverable panic (unwrap of None / arithmetic overflow). -/
inductive Fault where
  | err (e : ContractError)
  | panic
  deriving DecidableEq, Repr

/-- Result type of the evaluator functions: Rust Result plus panics. -/
abbrev Res (α : Type) := Except Fault α

/-- Lift a Result carrying a ContractError into the fault-aware result. -/
def liftCE : Except ContractError α → Res α
  | .ok v => .ok v
  | .error e => .error (.err e)

/-- Unwrap of a checked arithmetic result: None panics. -/
def unwrapRes : Option α → Res α
  | some v => .ok v
  | none => .error .panic

/- ## Numeric domain constants -/

/-- Smallest i128 value. -/
def IMINv : Int := -(2 ^ 127)

/-- Largest i128 value. -/
def IMAXv : Int := 2 ^ 127 - 1

/-- Largest Uint256 value, also the largest atomics value of Decimal256. -/
def UMAXv : Nat := 2 ^ 256 - 1

/-- Decimal256 fractional scale: 10 to the 18. -/
def DEC_ONE : Nat := 10 ^ 18

/- ## i128 operations (values modelled as Int, range IMINv..IMAXv) -/

/-- Clamp an integer to the i128 range, the semantics of the i128
saturating operations. -/
def clampI (z : Int) : Int := max IMINv (min z IMAXv)

/-- Rust i128 saturating_add. -/
def isatAdd (a b : Int) : Int := clampI (a + b)

/-- Rust i128 saturating_sub. -/
def isatSub (a b : Int) : Int := clampI (a - b)

/-- Rust i128 saturating_mul. -/
def isatMul (a b : Int) : Int := clampI (a * b)

/-- Rust i128 checked_div: None on zero divisor and on the single
overflowing case IMINv / -1; otherwise division truncating toward zero. -/
def icheckedDiv (a b : Int) : Option Int :=
  if b = 0 then none
  else if a = IMINv ∧ b = -1 then none
  else some (a.tdiv b)

/-- Rust i128 checked_rem: None on zero divisor and on the overflowing
case IMINv rem -1; otherwise remainder with the sign of the dividend. -/
def icheckedRem (a b : Int) : Option Int :=
  if b = 0 then none
  else if a = IMINv ∧ b = -1 then none
  else some (a.tmod b)

/-- Rust i128 abs under overflow checks: panics at IMINv (no representable
result), otherwise the absolute value. -/
def iabs (a : Int) : Res Int :=
  if a = IMINv then .error .panic else .ok |a|

/- ## Uint256 operations (values modelled as Nat, range 0..UMAXv) -/

/-- Clamp a natural to the Uint256 range. -/
def clampU (n : Nat) : Nat := min n UMAXv

/-- Uint256 saturating_add. -/
def usatAdd (a b : Nat) : Nat := clampU (a + b)

/-- Uint256 saturating_sub: Nat subtraction already clamps at zero. -/
def usatSub (a b : Nat) : Nat := a - b

/-- Uint256 saturating_mul. -/
def usatMul (a b : Nat) : Nat := clampU (a * b)

/-- Uint256 checked_div: None exactly on zero divisor. -/
def ucheckedDiv (a b : Nat) : Option Nat :=
  if b = 0 then none else some (a / b)

/-- Uint256 checked_rem: None exactly on zero divisor. -/
def ucheckedRem (a b : Nat) : Option Nat :=
  if b = 0 then none else some (a % b)

/-- Uint256 abs_diff. -/
def uabsDiff (a b : Nat) : Nat := max a b - min a b

/- ## Decimal256 operations (modelled by atomics : Nat, value = atomics / DEC_ONE) -/

/-- Decimal256 saturating_add on atomics. -/
def dsatAdd (a b : Nat) : Nat := clampU (a + b)

/-- Decimal256 saturating_sub on atomics: clamps at zero. -/
def dsatSub (a b : Nat) : Nat := a - b

/-- Decimal256 saturating_mul: full product of atomics rescaled by
DEC_ONE, truncated, clamped at the maximum. -/
def dsatMul (a b : Nat) : Nat := clampU (a * b / DEC_ONE)

/-- Decimal256 checked_div: exact rescaled quotient, None on zero divisor
or when the quotient overflows the atomics range. -/
def dcheckedDiv (a b : Nat) : Option Nat :=
  if b = 0 then none
  else
    let q := a * DEC_ONE / b
    if q ≤ UMAXv then some q else none

/-- Decimal256 checked_rem: remainder of atomics, None on zero divisor. -/
def dcheckedRem (a b : Nat) : Option Nat :=
  if b = 0 then none else some (a % b)

/-- Decimal256 abs_diff on atomics. -/
def dabsDiff (a b : Nat) : Nat := max a b - min a b

/-- Decimal256 floor: clear the fractional atomics. -/
def dfloor (a : Nat) : Nat := a - a % DEC_ONE

/-- Decimal256 ceil: round up to a whole unit; None when rounding up
overflows the atomics range (the source panics there). -/
def dceil (a : Nat) : Option Nat :=
  if a % DEC_ONE = 0 then some a
  else
    let c := (a / DEC_ONE + 1) * DEC_ONE
    if c ≤ UMAXv then some c else none

/-- Decimal256 sqrt: integer square root of the rescaled atomics. -/
def dsqrt (a : Nat) : Nat := Nat.sqrt (a * DEC_ONE)

/- ## Generic document model and external query channel -/

/-- One step of a selector path: a field name or an array index. -/
inductive PathStep where
  | field (k : String)
  | index (i : Nat)
  deriving DecidableEq, Repr

/-- Generically decoded structured document, as produced by the external
JSON decoder: object, array, string, number, bool, null. -/
inductive Json where
  | null
  | bool (b : Bool)
  | str (s : String)
  | num (n : Int)
  | arr (xs : List Json)
  | obj (fields : List (String × Json))
  deriving Repr

/-- Accessor matching Ref bool of the external document library: Some
exactly on a boolean leaf. -/
def Json.asBool : Json → Option Bool
  | .bool b => some b
  | _ => none

/-- Accessor matching Ref string: Some exactly on a string leaf. -/
def Json.asString : Json → Option String
  | .str s => some s
  | _ => none

/-- Accessor matching Ref i128: Some exactly on a number leaf. -/
def Json.asI128 : Json → Option Int
  | .num n => some n
  | _ => none

/-- Modelled from the spec: resolve_path of src/util/path.rs is not under
src; per the spec it navigates a generically decoded document by a
sequence of field-name/array-index steps and fails when a step does not
exist (the spec names DecodeError for a missing selector step). -/
def resolvePath : Json → List PathStep → Except ContractError Json
  | v, [] => .ok v
  | Json.obj fields, PathStep.field k :: rest =>
      match List.lookup k fields with
      | some v => resolvePath v rest
      | none => .error .decodeError
  | Json.arr xs, PathStep.index i :: rest =>
      match xs.get? i with
      | some v => resolvePath v rest
      | none => .error .decodeError
  | _, PathStep.field _ :: _ => .error .decodeError
  | _, PathStep.index _ :: _ => .error .decodeError

/-- External query descriptor: an opaque serialized query request plus a
selector path into the returned document. -/
structure QueryExpr where
  query : String
  selector : List PathStep
  deriving Repr

/-- Outcome of the host raw_query channel, mirroring
SystemResult(ContractResult(Binary)); the payload stands for the
base64-decoded response string (serialization, the host channel, base64
and binary-to-string are external collaborators). -/
inductive SysQueryResult where
  | sysErr (msg : String)
  | contractErr (msg : String)
  | ok (payload : String)
  deriving Repr

/-- Read-only dependencies of the evaluator: the host query channel and
the external JSON decoder (json_codec_wasm), both external collaborators
modelled as abstract functions supplied by the environment. -/
structure Deps where
  rawQuery : String → SysQueryResult
  decodeJson : String → Except ContractError Json

/-- Execution environment: block time in seconds and block height. -/
structure Env where
  time : Nat
  height : Nat
  deriving DecidableEq, Repr

/-- Embeds resolve_query_expr: submit the serialized request to the host
channel, map the two host failure modes to Std errors carrying diagnostic
text, return the decoded payload string on success. -/
def resolveQueryExpr (deps : Deps) (_env : Env) (e : QueryExpr) :
    Except ContractError String :=
  match deps.rawQuery e.query with
  | .sysErr m => .error (.std ("Querier system error: " ++ m))
  | .contractErr m => .error (.std ("Querier contract error: " ++ m))
  | .ok payload => .ok payload

/-- Embeds resolve_query_expr_bool: query, decode, navigate, then the
bool accessor; a None accessor result maps to DecodeError. -/
def resolveQueryExprBool (deps : Deps) (env : Env) (e : QueryExpr) :
    Except ContractError Bool :=
  match resolveQueryExpr deps env e with
  | .error er => .error er
  | .ok s =>
    match deps.decodeJson s with
    | .error er => .error er
    | .ok v =>
      match resolvePath v e.selector with
      | .error er => .error er
      | .ok leaf =>
        match leaf.asBool with
        | some b => .ok b
        | none => .error .decodeError

/-- Embeds Uint256 from_str: digits-only parse with a range check; any
parse failure surfaces as a Std error. -/
def uint256FromStr (s : String) : Except ContractError Nat :=
  match s.toNat? with
  | some n => if n ≤ UMAXv then .ok n else .error (.std ("Value too big"))
  | none => .error (.std ("Error parsing number"))

/-- Embeds Decimal256 from_str: whole part with an optional fractional
part of at most 18 digits, scaled to atomics, with a range check. -/
def decimal256FromStr (s : String) : Except ContractError Nat :=
  match s.split (fun c => c = '.') with
  | [w] =>
    match w.toNat? with
    | some n =>
        if n * DEC_ONE ≤ UMAXv then .ok (n * DEC_ONE)
        else .error (.std ("Value too big"))
    | none => .error (.std ("Error parsing whole"))
  | [w, f] =>
    match w.toNat?, f.toNat? with
    | some n, some fn =>
        if f.length ≤ 18 then
          let a := n * DEC_ONE + fn * 10 ^ (18 - f.length)
          if a ≤ UMAXv then .ok a else .error (.std ("Value too big"))
        else .error (.std ("Cannot parse more than 18 fractional digits"))
    | _, _ => .error (.std ("Error parsing"))
  | _ => .error (.std ("Unexpected number format"))

/-- Embeds resolve_query_expr_uint: the string accessor then Uint256
parsing; a None accessor result maps to DecodeError. -/
def resolveQueryExprUint (deps : Deps) (env : Env) (e : QueryExpr) :
    Except ContractError Nat :=
  match resolveQueryExpr deps env e with
  | .error er => .error er
  | .ok s =>
    match deps.decodeJson s with
    | .error er => .error er
    | .ok v =>
      match resolvePath v e.selector with
      | .error er => .error er
      | .ok leaf =>
        match leaf.asString with
        | some str => uint256FromStr str
        | none => .error .decodeError

/-- Embeds resolve_query_expr_int: the i128 accessor; a None accessor
result maps to DecodeError. -/
def resolveQueryExprInt (deps : Deps) (env : Env) (e : QueryExpr) :
    Except ContractError Int :=
  match resolveQueryExpr deps env e with
  | .error er => .error er
  | .ok s =>
    match deps.decodeJson s with
    | .error er => .error er
    | .ok v =>
      match resolvePath v e.selector with
      | .error er => .error er
      | .ok leaf =>
        match leaf.asI128 with
        | some n => .ok n
        | none => .error .decodeError

/-- Embeds resolve_query_expr_decimal: the string accessor then
Decimal256 parsing; a None accessor result maps to Unauthorized in the
source, unlike the four sibling resolvers. -/
def resolveQueryExprDecimal (deps : Deps) (env : Env) (e : QueryExpr) :
    Except ContractError Nat :=
  match resolveQueryExpr deps env e with
  | .error er => .error er
  | .ok s =>
    match deps.decodeJson s with
    | .error er => .error er
    | .ok v =>
      match resolvePath v e.selector with
      | .error er => .error er
      | .ok leaf =>
        match leaf.asString with
        | some str => decimal256FromStr str
        | none => .error .unauthorized

/-- Embeds resolve_query_expr_string: the string accessor; a None
accessor result maps to DecodeError. -/
def resolveQueryExprString (deps : Deps) (env : Env) (e : QueryExpr) :
    Except ContractError String :=
  match resolveQueryExpr deps env e with
  | .error er => .error er
  | .ok s =>
    match deps.decodeJson s with
    | .error er => .error er
    | .ok v =>
      match resolvePath v e.selector with
      | .error er => .error er
      | .ok leaf =>
        match leaf.asString with
        | some str => .ok str
        | none => .error .decodeError

/- ## Numeric value expression trees and their evaluators -/

/-- Binary arithmetic operators of NumExprValue. -/
inductive NumExprOp where
  | add | sub | div | mul | mod
  deriving DecidableEq, Repr

/-- Unary functions of the integer domains. -/
inductive IntFnOp where
  | abs | neg
  deriving DecidableEq, Repr

/-- Unary functions of the decimal domain. -/
inductive DecimalFnOp where
  | abs | neg | floor | sqrt | ceil
  deriving DecidableEq, Repr

/-- NumValue of the protocol crate: a literal, a binary arithmetic
sub-tree, an external lookup, or a unary function application. -/
inductive NumValue (T : Type) (FnOp : Type) where
  | simple (v : T)
  | expr (left : NumValue T FnOp) (op : NumExprOp) (right : NumValue T FnOp)
  | query (q : QueryExpr)
  | fn (op : FnOp) (right : NumValue T FnOp)
  deriving Repr

/-- Embeds resolve_num_value_int, evaluating a NumValue over i128:
literals unchanged, arithmetic sub-trees and unary functions evaluated
recursively, lookups delegated to the typed query resolver. -/
def resolveNumValueInt (deps : Deps) (env : Env) :
    NumValue Int IntFnOp → Res Int
  | .simple v => .ok v
  | .expr left op right =>
    match resolveNumValueInt deps env left with
    | .error e => .error e
    | .ok l =>
      match resolveNumValueInt deps env right with
      | .error e => .error e
      | .ok r =>
        match op with
        | .sub => .ok (isatSub l r)
        | .add => .ok (isatAdd l r)
        | .div => unwrapRes (icheckedDiv l r)
        | .mul => .ok (isatMul l r)
        | .mod => unwrapRes (icheckedRem l r)
  | .query q => liftCE (resolveQueryExprInt deps env q)
  | .fn op right =>
    match resolveNumValueInt deps env right with
    | .error e => .error e
    | .ok r =>
      match op with
      | .abs => iabs r
      | .neg => .ok (isatMul r (-1))

/-- Embeds resolve_num_expr_int: evaluate both operands, then apply the
operator with saturating semantics for add, sub, mul and an unwrap of the
checked operation for div and mod. -/
def resolveNumExprInt (deps : Deps) (env : Env)
    (left : NumValue Int IntFnOp) (op : NumExprOp)
    (right : NumValue Int IntFnOp) : Res Int :=
  match resolveNumValueInt deps env left with
  | .error e => .error e
  | .ok l =>
    match resolveNumValueInt deps env right with
    | .error e => .error e
    | .ok r =>
      match op with
      | .sub => .ok (isatSub l r)
      | .add => .ok (isatAdd l r)
      | .div => unwrapRes (icheckedDiv l r)
      | .mul => .ok (isatMul l r)
      | .mod => unwrapRes (icheckedRem l r)

/-- Embeds resolve_num_fn_int: evaluate the operand, then abs (overflow
fault at the minimum) or neg (saturating multiplication by minus one). -/
def resolveNumFnInt (deps : Deps) (env : Env) (op : IntFnOp)
    (right : NumValue Int IntFnOp) : Res Int :=
  match resolveNumValueInt deps env right with
  | .error e => .error e
  | .ok r =>
    match op with
    | .abs => iabs r
    | .neg => .ok (isatMul r (-1))

/-- The expr branch of the NumValue evaluator agrees with the standalone
resolve_num_expr_int embedding. -/
theorem resolveNumValueInt_expr (deps : Deps) (env : Env)
    (l : NumValue Int IntFnOp) (op : NumExprOp) (r : NumValue Int IntFnOp) :
    resolveNumValueInt deps env (.expr l op r) =
      resolveNumExprInt deps env l op r := rfl

/-- The fn branch of the NumValue evaluator agrees with the standalone
resolve_num_fn_int embedding. -/
theorem resolveNumValueInt_fn (deps : Deps) (env : Env)
    (op : IntFnOp) (r : NumValue Int IntFnOp) :
    resolveNumValueInt deps env (.fn op r) =
      resolveNumFnInt deps env op r := rfl

/-- Embeds resolve_num_value_uint over Uint256 values. -/
def resolveNumValueUint (deps : Deps) (env : Env) :
    NumValue Nat IntFnOp → Res Nat
  | .simple v => .ok v
  | .expr left op right =>
    match resolveNumValueUint deps env left with
    | .error e => .error e
    | .ok l =>
      match resolveNumValueUint deps env right with
      | .error e => .error e
      | .ok r =>
        match op with
        | .sub => .ok (usatSub l r)
        | .add => .ok (usatAdd l r)
        | .div => unwrapRes (ucheckedDiv l r)
        | .mul => .ok (usatMul l r)
        | .mod => unwrapRes (ucheckedRem l r)
  | .query q => liftCE (resolveQueryExprUint deps env q)
  | .fn op right =>
    match resolveNumValueUint deps env right with
    | .error e => .error e
    | .ok r =>
      match op with
      | .abs => .ok (uabsDiff r 0)
      | .neg => .ok (usatMul r (usatSub 0 1))

/-- Embeds resolve_num_expr_uint. -/
def resolveNumExprUint (deps : Deps) (env : Env)
    (left : NumValue Nat IntFnOp) (op : NumExprOp)
    (right : NumValue Nat IntFnOp) : Res Nat :=
  match resolveNumValueUint deps env left with
  | .error e => .error e
  | .ok l =>
    match resolveNumValueUint deps env right with
    | .error e => .error e
    | .ok r =>
      match op with
      | .sub => .ok (usatSub l r)
      | .add => .ok (usatAdd l r)
      | .div => unwrapRes (ucheckedDiv l r)
      | .mul => .ok (usatMul l r)
      | .mod => unwrapRes (ucheckedRem l r)

/-- Embeds resolve_num_fn_uint: abs is absolute difference from zero, neg
is saturating multiplication by the saturating difference zero minus one. -/
def resolveNumFnUint (deps : Deps) (env : Env) (op : IntFnOp)
    (right : NumValue Nat IntFnOp) : Res Nat :=
  match resolveNumValueUint deps env right with
  | .error e => .error e
  | .ok r =>
    match op with
    | .abs => .ok (uabsDiff r 0)
    | .neg => .ok (usatMul r (usatSub 0 1))

/-- The expr branch of the Uint256 evaluator agrees with the standalone
resolve_num_expr_uint embedding. -/
theorem resolveNumValueUint_expr (deps : Deps) (env : Env)
    (l : NumValue Nat IntFnOp) (op : NumExprOp) (r : NumValue Nat IntFnOp) :
    resolveNumValueUint deps env (.expr l op r) =
      resolveNumExprUint deps env l op r := rfl

/-- The fn branch of the Uint256 evaluator agrees with the standalone
resolve_num_fn_uint embedding. -/
theorem resolveNumValueUint_fn (deps : Deps) (env : Env)
    (op : IntFnOp) (r : NumValue Nat IntFnOp) :
    resolveNumValueUint deps env (.fn op r) =
      resolveNumFnUint deps env op r := rfl

/-- Embeds resolve_num_value_decimal over Decimal256 atomics. -/
def resolveNumValueDecimal (deps : Deps) (env : Env) :
    NumValue Nat DecimalFnOp → Res Nat
  | .simple v => .ok v
  | .expr left op right =>
    match resolveNumValueDecimal deps env left with
    | .error e => .error e
    | .ok l =>
      match resolveNumValueDecimal deps env right with
      | .error e => .error e
      | .ok r =>
        match op with
        | .sub => .ok (dsatSub l r)
        | .add => .ok (dsatAdd l r)
        | .div => unwrapRes (dcheckedDiv l r)
        | .mul => .ok (dsatMul l r)
        | .mod => unwrapRes (dcheckedRem l r)
  | .query q => liftCE (resolveQueryExprDecimal deps env q)
  | .fn op right =>
    match resolveNumValueDecimal deps env right with
    | .error e => .error e
    | .ok r =>
      match op with
      | .abs => .ok (dabsDiff r 0)
      | .neg => .ok (dsatMul r (dsatSub 0 DEC_ONE))
      | .floor => .ok (dfloor r)
      | .sqrt => .ok (dsqrt r)
      | .ceil => unwrapRes (dceil r)

/-- Embeds resolve_num_expr_decimal. -/
def resolveNumExprDecimal (deps : Deps) (env : Env)
    (left : NumValue Nat DecimalFnOp) (op : NumExprOp)
    (right : NumValue Nat DecimalFnOp) : Res Nat :=
  match resolveNumValueDecimal deps env left with
  | .error e => .error e
  | .ok l =>
    match resolveNumValueDecimal deps env right with
    | .error e => .error e
    | .ok r =>
      match op with
      | .sub => .ok (dsatSub l r)
      | .add => .ok (dsatAdd l r)
      | .div => unwrapRes (dcheckedDiv l r)
      | .mul => .ok (dsatMul l r)
      | .mod => unwrapRes (dcheckedRem l r)

/-- Embeds resolve_num_fn_decimal: abs is absolute difference from zero,
neg is saturating multiplication by the saturating difference zero minus
one (one decimal unit), plus floor, sqrt and ceil. -/
def resolveNumFnDecimal (deps : Deps) (env : Env) (op : DecimalFnOp)
    (right : NumValue Nat DecimalFnOp) : Res Nat :=
  match resolveNumValueDecimal deps env right with
  | .error e => .error e
  | .ok r =>
    match op with
    | .abs => .ok (dabsDiff r 0)
    | .neg => .ok (dsatMul r (dsatSub 0 DEC_ONE))
    | .floor => .ok (dfloor r)
    | .sqrt => .ok (dsqrt r)
    | .ceil => unwrapRes (dceil r)

/-- The expr branch of the decimal evaluator agrees with the standalone
resolve_num_expr_decimal embedding. -/
theorem resolveNumValueDecimal_expr (deps : Deps) (env : Env)
    (l : NumValue Nat DecimalFnOp) (op : NumExprOp)
    (r : NumValue Nat DecimalFnOp) :
    resolveNumValueDecimal deps env (.expr l op r) =
      resolveNumExprDecimal deps env l op r := rfl

/-- The fn branch of the decimal evaluator agrees with the standalone
resolve_num_fn_decimal embedding. -/
theorem resolveNumValueDecimal_fn (deps : Deps) (env : Env)
    (op : DecimalFnOp) (r : NumValue Nat DecimalFnOp) :
    resolveNumValueDecimal deps env (.fn op r) =
      resolveNumFnDecimal deps env op r := rfl

/- ## Comparison operators and boolean expressions -/

/-- Six-way numeric comparison operator. -/
inductive NumOp where
  | eq | neq | lt | gt | gte | lte
  deriving DecidableEq, Repr

/-- String comparison operator. -/
inductive StringOp where
  | startsWith | endsWith | contains | eq | neq
  deriving DecidableEq, Repr

/-- Two-way time comparison operator. -/
inductive TimeOp where
  | lt | gt
  deriving DecidableEq, Repr

/-- Embeds resolve_uint_op. -/
def resolveUintOp (_deps : Deps) (_env : Env) (left right : Nat)
    (op : NumOp) : Bool :=
  match op with
  | .eq => left = right
  | .neq => left ≠ right
  | .lt => left < right
  | .gt => left > right
  | .gte => left ≥ right
  | .lte => left ≤ right

/-- Embeds resolve_int_op. -/
def resolveIntOp (_deps : Deps) (_env : Env) (left right : Int)
    (op : NumOp) : Bool :=
  match op with
  | .eq => left = right
  | .neq => left ≠ right
  | .lt => left < right
  | .gt => left > right
  | .gte => left ≥ right
  | .lte => left ≤ right

/-- Embeds resolve_decimal_op on atomics (the Decimal256 order is the
order of atomics). -/
def resolveDecimalOp (_deps : Deps) (_env : Env) (left right : Nat)
    (op : NumOp) : Bool :=
  match op with
  | .eq => left = right
  | .neq => left ≠ right
  | .lt => left < right
  | .gt => left > right
  | .gte => left ≥ right
  | .lte => left ≤ right

/-- Substring containment, the semantics of Rust str contains. -/
def strContains (l r : String) : Bool :=
  if r = "" then true else 2 ≤ (l.splitOn r).length

/-- Embeds resolve_str_op. -/
def resolveStrOp (_deps : Deps) (_env : Env) (left right : String)
    (op : StringOp) : Bool :=
  match op with
  | .startsWith => left.startsWith right
  | .endsWith => left.endsWith right
  | .contains => strContains left right
  | .eq => left = right
  | .neq => left ≠ right

/-- Generic comparison expression: left and right operands and an
operator. -/
structure GenExpr (V : Type) (Op : Type) where
  left : V
  op : Op
  right : V
  deriving Repr

/-- String operand: a literal or an external lookup. -/
inductive Value (T : Type) where
  | simple (v : T)
  | query (q : QueryExpr)
  deriving Repr

/-- Time comparison against the block time. -/
structure TimeExpr where
  comparator : Nat
  op : TimeOp
  deriving Repr

/-- Block height comparison. -/
structure BlockExpr where
  comparator : Nat
  op : NumOp
  deriving Repr

/-- Embeds resolve_timestamp_expr: compare block time in seconds against
the literal comparator. -/
def resolveTimestampExpr (_deps : Deps) (env : Env) (e : TimeExpr) :
    Res Bool :=
  .ok (match e.op with
    | .lt => decide (env.time < e.comparator)
    | .gt => decide (env.time > e.comparator))

/-- Embeds resolve_block_expr: compare block height against the literal
comparator with the full six-operator set. -/
def resolveBlockExpr (_deps : Deps) (env : Env) (e : BlockExpr) :
    Res Bool :=
  .ok (match e.op with
    | .eq => decide (env.height = e.comparator)
    | .neq => decide (env.height ≠ e.comparator)
    | .lt => decide (env.height < e.comparator)
    | .gt => decide (env.height > e.comparator)
    | .gte => decide (env.height ≥ e.comparator)
    | .lte => decide (env.height ≤ e.comparator))

/-- Embeds resolve_string_expr: four arms over literal/lookup operand
combinations, lookups resolved through the string query resolver. -/
def resolveStringExpr (deps : Deps) (env : Env)
    (e : GenExpr (Value String) StringOp) : Res Bool :=
  match e.left, e.right with
  | .simple l, .simple r => .ok (resolveStrOp deps env l r e.op)
  | .simple l, .query rq =>
    match resolveQueryExprString deps env rq with
    | .error er => .error (.err er)
    | .ok r => .ok (resolveStrOp deps env l r e.op)
  | .query lq, .simple r =>
    match resolveQueryExprString deps env lq with
    | .error er => .error (.err er)
    | .ok l => .ok (resolveStrOp deps env l r e.op)
  | .query lq, .query rq =>
    match resolveQueryExprString deps env lq with
    | .error er => .error (.err er)
    | .ok l =>
      match resolveQueryExprString deps env rq with
      | .error er => .error (.err er)
      | .ok r => .ok (resolveStrOp deps env l r e.op)

/-- Embeds resolve_uint_expr: evaluate both numeric operands, then the
comparison operator. -/
def resolveUintExpr (deps : Deps) (env : Env)
    (e : GenExpr (NumValue Nat IntFnOp) NumOp) : Res Bool :=
  match resolveNumValueUint deps env e.left with
  | .error er => .error er
  | .ok l =>
    match resolveNumValueUint deps env e.right with
    | .error er => .error er
    | .ok r => .ok (resolveUintOp deps env l r e.op)

/-- Embeds resolve_int_expr. -/
def resolveIntExpr (deps : Deps) (env : Env)
    (e : GenExpr (NumValue Int IntFnOp) NumOp) : Res Bool :=
  match resolveNumValueInt deps env e.left with
  | .error er => .error er
  | .ok l =>
    match resolveNumValueInt deps env e.right with
    | .error er => .error er
    | .ok r => .ok (resolveIntOp deps env l r e.op)

/-- Embeds resolve_decimal_expr. -/
def resolveDecimalExpr (deps : Deps) (env : Env)
    (e : GenExpr (NumValue Nat DecimalFnOp) NumOp) : Res Bool :=
  match resolveNumValueDecimal deps env e.left with
  | .error er => .error er
  | .ok l =>
    match resolveNumValueDecimal deps env e.right with
    | .error er => .error er
    | .ok r => .ok (resolveDecimalOp deps env l r e.op)

/-- Typed boolean expression: one variant per value domain, plus time,
block height and a direct boolean lookup. -/
inductive Expr where
  | string (e : GenExpr (Value String) StringOp)
  | uint (e : GenExpr (NumValue Nat IntFnOp) NumOp)
  | int (e : GenExpr (NumValue Int IntFnOp) NumOp)
  | decimal (e : GenExpr (NumValue Nat DecimalFnOp) NumOp)
  | timestamp (e : TimeExpr)
  | blockheight (e : BlockExpr)
  | bool (e : QueryExpr)

/-- Embeds resolve_expr: dispatch on the expression tag. -/
def resolveExpr (deps : Deps) (env : Env) : Expr → Res Bool
  | .string e => resolveStringExpr deps env e
  | .uint e => resolveUintExpr deps env e
  | .int e => resolveIntExpr deps env e
  | .decimal e => resolveDecimalExpr deps env e
  | .timestamp e => resolveTimestampExpr deps env e
  | .blockheight e => resolveBlockExpr deps env e
  | .bool e => liftCE (resolveQueryExprBool deps env e)

mutual
/-- Boolean condition tree: conjunction and disjunction over a list of
sub-conditions, negation, or a typed expression leaf. -/
inductive Condition where
  | and (cs : CondList)
  | or (cs : CondList)
  | not (c : Condition)
  | expr (e : Expr)

/-- List of boxed sub-conditions, mirroring the vector of the source. -/
inductive CondList where
  | nil
  | cons (c : Condition) (cs : CondList)
end

mutual
/-- Embeds resolve_cond: conjunction and disjunction iterate the children
with short-circuit, negation flips the recursive result, expression
leaves dispatch to the typed sub-evaluator; errors propagate. -/
def resolveCond (deps : Deps) (env : Env) : Condition → Res Bool
  | .and cs => resolveCondAnd deps env cs
  | .or cs => resolveCondOr deps env cs
  | .not c =>
    match resolveCond deps env c with
    | .error e => .error e
    | .ok b => .ok (!b)
  | .expr e => resolveExpr deps env e

/-- The And loop of resolve_cond: stop with false at the first false
child, true when the list is exhausted. -/
def resolveCondAnd (deps : Deps) (env : Env) : CondList → Res Bool
  | .nil => .ok true
  | .cons c cs =>
    match resolveCond deps env c with
    | .error e => .error e
    | .ok false => .ok false
    | .ok true => resolveCondAnd deps env cs

/-- The Or loop of resolve_cond: stop with true at the first true child,
false when the list is exhausted. -/
def resolveCondOr (deps : Deps) (env : Env) : CondList → Res Bool
  | .nil => .ok false
  | .cons c cs =>
    match resolveCond deps env c with
    | .error e => .error e
    | .ok true => .ok true
    | .ok false => resolveCondOr deps env cs
end

/- ## Job store and lifecycle state machine -/

/-- Job status: Pending is the only non-terminal state of this core. -/
inductive JobStatus where
  | pending
  | executed
  | failed
  deriving DecidableEq, Repr

/-- Job record: id, owner, name, condition, opaque action descriptors,
reward, status and last mutation time. -/
structure Job where
  id : Nat
  owner : String
  name : String
  condition : Condition
  msgs : List String
  reward : Nat
  status : JobStatus
  lastUpdateTime : Nat

/-- The two persistent job collections, each keyed by job id. -/
structure JobStore where
  pending : Nat → Option Job
  finished : Nat → Option Job

/-- Response attribute: key and value. -/
abbrev Attr := String × String

/-- Outcome of a dispatched sub-call delivered to the reply handler. -/
inductive SubMsgResult where
  | ok
  | err (e : String)
  deriving DecidableEq, Repr

/-- Serialization of a job status as emitted into the job_status response
attribute. -/
def statusString : JobStatus → String
  | .pending => "pending"
  | .executed => "executed"
  | .failed => "failed"

/-- Embeds the job-execution branch of reply (correlation id nonzero):
derive the new status from the outcome, load the pending entry (a missing
entry is a Std load error), remove it from the pending collection, insert
into the finished collection unless an entry already exists there (then
JobAlreadyFinished), and build the response attributes, retaining the
failure text as transaction_error on a failed outcome. On any error the
host reverts all storage writes of the call, so the returned error value
is the complete effect of a failing branch. -/
def replyJobBranch (st : JobStore) (msgId : Nat) (result : SubMsgResult) :
    Except ContractError (JobStore × List Attr) :=
  let newStatus : JobStatus :=
    match result with
    | .ok => .executed
    | .err _ => .failed
  match st.pending msgId with
  | none => .error (.std ("pending_jobs not found"))
  | some job =>
    match st.finished msgId with
    | some _ => .error .jobAlreadyFinished
    | none =>
      let newJob : Job :=
        { id := job.id, owner := job.owner,
          lastUpdateTime := job.lastUpdateTime, name := job.name,
          status := newStatus, condition := job.condition,
          msgs := job.msgs, reward := job.reward }
      let pending2 : Nat → Option Job :=
        fun i => if i = msgId then none else st.pending i
      let finished2 : Nat → Option Job :=
        fun i => if i = msgId then some newJob else st.finished i
      let resAttrs : List Attr :=
        match result with
        | .err e => [("transaction_error", e)]
        | .ok => []
      .ok (⟨pending2, finished2⟩,
        [("action", "execute_reply"), ("job_id", toString job.id),
         ("job_status", statusString job.status)] ++ resAttrs)

/-- Controller state: the two job collections plus the monotonically
assigned next job id (current_job_id starts at one, so the account
creation correlation id zero is never a job id). -/
structure CtrlState where
  store : JobStore
  nextId : Nat

/-- A job id has been created when it lies below the id counter and above
zero. -/
def createdId (s : CtrlState) (id : Nat) : Prop :=
  1 ≤ id ∧ id < s.nextId

/-- Input data of job creation. -/
structure CreateJobData where
  owner : String
  name : String
  condition : Condition
  msgs : List String
  reward : Nat
  lastUpdateTime : Nat

/-- Modelled from the spec: create_job lives in src/execute/job.rs, which
is not under src; per the spec a job is created in Pending with a fresh
monotonically assigned id and stored solely in the pending collection. -/
def createJob (s : CtrlState) (d : CreateJobData) : CtrlState :=
  { nextId := s.nextId + 1,
    store :=
      { pending := fun i =>
          if i = s.nextId then
            some { id := s.nextId, owner := d.owner, name := d.name,
                   condition := d.condition, msgs := d.msgs,
                   reward := d.reward, status := .pending,
                   lastUpdateTime := d.lastUpdateTime }
          else s.store.pending i,
        finished := s.store.finished } }

/-- Apply a job-execution callback: on success of the branch commit the
new store, on error the host reverts the call, leaving the state
unchanged. -/
def applyReply (s : CtrlState) (id : Nat) (res : SubMsgResult) :
    CtrlState :=
  match replyJobBranch s.store id res with
  | .ok p => { s with store := p.1 }
  | .error _ => s

/-- Initial controller state: both collections empty, id counter at one
as set by instantiate. -/
def initState : CtrlState :=
  { store := { pending := fun _ => none, finished := fun _ => none },
    nextId := 1 }

/-- One step of the lifecycle state machine: job creation (spec-modelled),
an execution attempt (which leaves both collections untouched, the job
stays Pending until its callback), or a job-execution callback with a
nonzero correlation id. -/
inductive Step : CtrlState → CtrlState → Prop where
  | create (s : CtrlState) (d : CreateJobData) : Step s (createJob s d)
  | executeJob (s : CtrlState) : Step s s
  | jobCallback (s : CtrlState) (id : Nat) (res : SubMsgResult)
      (h : id ≠ 0) : Step s (applyReply s id res)

/-- Reachability from the initial state by lifecycle steps. -/
inductive Reachable : CtrlState → Prop where
  | init : Reachable initState
  | step {s t : CtrlState} : Reachable s → Step s t → Reachable t

/- ## Characterization of the reply job branch -/

/-- New status derived from the callback outcome. -/
def newStatusOf : SubMsgResult → JobStatus
  | .ok => .executed
  | .err _ => .failed

/-- The finished record built by the reply branch: all fields copied from
the pending record, status replaced by the outcome status. -/
def finishedJob (j : Job) (res : SubMsgResult) : Job :=
  { j with status := newStatusOf res }

/-- Response attributes built by the reply branch. -/
def replyAttrs (j : Job) (res : SubMsgResult) : List Attr :=
  [("action", "execute_reply"), ("job_id", toString j.id),
   ("job_status", statusString j.status)] ++
    (match res with
     | .err e => [("transaction_error", e)]
     | .ok => [])

/-- A callback for an id absent from the pending collection fails at the
load with a Std error. -/
theorem replyJobBranch_pending_none (st : JobStore) (id : Nat)
    (res : SubMsgResult) (h : st.pending id = none) :
    replyJobBranch st id res = .error (.std ("pending_jobs not found")) := by
  simp [replyJobBranch, h]

/-- A callback for an id present in both collections fails with
JobAlreadyFinished. -/
theorem replyJobBranch_both (st : JobStore) (id : Nat) (res : SubMsgResult)
    (j j2 : Job) (hp : st.pending id = some j)
    (hf : st.finished id = some j2) :
    replyJobBranch st id res = .error .jobAlreadyFinished := by
  simp [replyJobBranch, hp, hf]

/-- A callback for an id that is pending and not yet finished succeeds,
removing the id from the pending collection and inserting the copied
record with the outcome status into the finished collection. -/
theorem replyJobBranch_ok (st : JobStore) (id : Nat) (res : SubMsgResult)
    (j : Job) (hp : st.pending id = some j) (hf : st.finished id = none) :
    replyJobBranch st id res =
      .ok (⟨fun i => if i = id then none else st.pending i,
            fun i => if i = id then some (finishedJob j res) else st.finished i⟩,
           replyAttrs j res) := by
  cases res <;>
    simp [replyJobBranch, hp, hf, finishedJob, newStatusOf, replyAttrs]

/- ## The partition invariant -/

/-- Strengthened induction invariant: the id counter stays positive, every
created id is in exactly one collection, and both collections hold only
created ids. -/
def Inv (s : CtrlState) : Prop :=
  1 ≤ s.nextId ∧
  (∀ id, createdId s id →
      ((s.store.pending id).isSome ∧ s.store.finished id = none) ∨
      (s.store.pending id = none ∧ (s.store.finished id).isSome)) ∧
  (∀ id, (s.store.pending id).isSome → createdId s id) ∧
  (∀ id, (s.store.finished id).isSome → createdId s id)

/-- The initial state satisfies the invariant. -/
theorem inv_init : Inv initState := by
  refine ⟨le_refl 1, ?_, ?_, ?_⟩ <;> intro id h
  · obtain ⟨a, b⟩ := h
    simp only [initState] at b
    exfalso
    omega
  · simp [initState] at h
  · simp [initState] at h

/-- Job creation preserves the invariant: the fresh id enters the pending
collection only, previously created ids are untouched. -/
theorem inv_create (s : CtrlState) (d : CreateJobData) (hs : Inv s) :
    Inv (createJob s d) := by
  obtain ⟨h1, hpart, hpend, hfin⟩ := hs
  refine ⟨?_, ?_, ?_, ?_⟩
  · simp only [createJob]
    omega
  · intro id hc
    simp only [createdId, createJob] at hc
    obtain ⟨hc1, hc2⟩ := hc
    by_cases hid : id = s.nextId
    · subst hid
      left
      constructor
      · simp [createJob]
      · cases hcase : s.store.finished s.nextId with
        | none => simp [createJob, hcase]
        | some j2 =>
          have t := hfin s.nextId (by simp [hcase])
          simp only [createdId] at t
          exfalso
          omega
    · have hlt : id < s.nextId := by omega
      rcases hpart id ⟨hc1, hlt⟩ with ⟨hp, hf⟩ | ⟨hp, hf⟩
      · left; constructor
        · simpa [createJob, hid] using hp
        · simpa [createJob] using hf
      · right; constructor
        · simpa [createJob, hid] using hp
        · simpa [createJob] using hf
  · intro id hp2
    simp only [createdId, createJob]
    by_cases hid : id = s.nextId
    · subst hid
      omega
    · simp [createJob, hid] at hp2
      have t := hpend id hp2
      simp only [createdId] at t
      omega
  · intro id hf2
    simp only [createdId, createJob]
    simp only [createJob] at hf2
    have t := hfin id hf2
    simp only [createdId] at t
    omega

/-- A job callback preserves the invariant: on success the id moves from
the pending to the finished collection in the same step, on error the
host reverts and the state is unchanged. -/
theorem inv_applyReply (s : CtrlState) (id : Nat) (res : SubMsgResult)
    (hs : Inv s) : Inv (applyReply s id res) := by
  obtain ⟨h1, hpart, hpend, hfin⟩ := hs
  unfold applyReply
  cases hp : s.store.pending id with
  | none =>
    rw [replyJobBranch_pending_none s.store id res hp]
    exact ⟨h1, hpart, hpend, hfin⟩
  | some j =>
    cases hf : s.store.finished id with
    | some j2 =>
      rw [replyJobBranch_both s.store id res j j2 hp hf]
      exact ⟨h1, hpart, hpend, hfin⟩
    | none =>
      rw [replyJobBranch_ok s.store id res j hp hf]
      refine ⟨h1, ?_, ?_, ?_⟩
      · intro id0 hc
        by_cases hid : id0 = id
        · subst hid
          right
          exact ⟨by simp, by simp⟩
        · rcases hpart id0 hc with ⟨hpp, hff⟩ | ⟨hpp, hff⟩
          · left; exact ⟨by simpa [hid] using hpp, by simpa [hid] using hff⟩
          · right; exact ⟨by simpa [hid] using hpp, by simpa [hid] using hff⟩
      · intro id0 hp2
        by_cases hid : id0 = id
        · subst hid; simp at hp2
        · simp [hid] at hp2
          exact hpend id0 hp2
      · intro id0 hf2
        by_cases hid : id0 = id
        · subst hid
          exact hpend _ (by simp [hp])
        · simp [hid] at hf2
          exact hfin id0 hf2

/-- Every lifecycle step preserves the invariant. -/
theorem inv_step {s t : CtrlState} (hs : Inv s) (h : Step s t) : Inv t := by
  cases h with
  | create d => exact inv_create s d hs
  | executeJob => exact hs
  | jobCallback id res hne => exact inv_applyReply s id res hs

/-- Every reachable state satisfies the invariant. -/
theorem reachable_inv {s : CtrlState} (h : Reachable s) : Inv s := by
  induction h with
  | init => exact inv_init
  | step _ hstep ih => exact inv_step ih hstep

/- ## Claim theorems: job lifecycle -/

/-- Claim C1: in every reachable state of the job store, every created job
id is present in exactly one of the pending and finished collections,
never both and never neither; every step of the lifecycle state machine,
including the job-execution callback that removes the id from pending and
inserts it into finished in the same step, preserves this partition. -/
theorem C1_job_partition (s : CtrlState) (hs : Reachable s) (id : Nat)
    (hc : createdId s id) :
    ((s.store.pending id).isSome ∧ s.store.finished id = none) ∨
    (s.store.pending id = none ∧ (s.store.finished id).isSome) :=
  (reachable_inv hs).2.1 id hc

/-- Creation data of the C1 witness job. -/
def dC1 : CreateJobData :=
  { owner := "alice", name := "job", condition := .and .nil, msgs := [],
    reward := 5, lastUpdateTime := 0 }

/-- State of the C1 witness after creating one job. -/
def sC1a : CtrlState := createJob initState dC1

/-- State of the C1 witness after the successful callback for job one. -/
def sC1b : CtrlState := applyReply sC1a 1 SubMsgResult.ok

/-- Witness for C1: the partition holds for job id one in the concrete
reachable state reached by one creation followed by its callback. -/
theorem C1_job_partition_witness :
    ((sC1b.store.pending 1).isSome ∧ sC1b.store.finished 1 = none) ∨
    (sC1b.store.pending 1 = none ∧ (sC1b.store.finished 1).isSome) :=
  C1_job_partition sC1b
    (Reachable.step (Reachable.step Reachable.init (Step.create initState dC1))
      (Step.jobCallback sC1a 1 SubMsgResult.ok (by decide)))
    1 ⟨le_refl 1, by decide⟩

/-- Store of the C2 counterexample before any callback: job one pending. -/
def sC2 : CtrlState :=
  { store :=
      { pending := fun i =>
          if i = 1 then
            some { id := 1, owner := "bob", name := "j", condition := .and .nil,
                   msgs := [], reward := 2, status := .pending,
                   lastUpdateTime := 0 }
          else none,
        finished := fun _ => none },
    nextId := 2 }

/-- Counterexample for C2: after the callback handler has finished job one
(it sits in the finished collection and is gone from pending), a second
callback for the same id returns the Std pending-load error, not
JobAlreadyFinished. -/
theorem C2_counterexample :
    ((applyReply sC2 1 SubMsgResult.ok).store.finished 1).isSome = true ∧
    (applyReply sC2 1 SubMsgResult.ok).store.pending 1 = none ∧
    replyJobBranch (applyReply sC2 1 SubMsgResult.ok).store 1 SubMsgResult.ok =
      .error (.std ("pending_jobs not found")) ∧
    ContractError.std ("pending_jobs not found") ≠
      ContractError.jobAlreadyFinished :=
  ⟨rfl, rfl, rfl, by decide⟩

/-- A callback whose branch errors leaves the controller state unchanged,
the host reverting the storage writes of the failed call. -/
theorem applyReply_error (s : CtrlState) (id : Nat) (res : SubMsgResult)
    (e : ContractError) (h : replyJobBranch s.store id res = .error e) :
    applyReply s id res = s := by
  simp [applyReply, h]

/-- Claim C2 (amended): finishing is still once-only, but the second
callback for an already finished id fails at the pending load with a Std
error rather than JobAlreadyFinished, and the rolled-back call leaves the
first finish record unchanged. -/
theorem C2_second_callback (s : CtrlState) (id : Nat)
    (res res2 : SubMsgResult) (j : Job) (hp : s.store.pending id = some j)
    (hf : s.store.finished id = none) :
    (applyReply s id res).store.finished id = some (finishedJob j res) ∧
    replyJobBranch (applyReply s id res).store id res2 =
      .error (.std ("pending_jobs not found")) ∧
    (applyReply (applyReply s id res) id res2).store.finished id =
      some (finishedJob j res) := by
  have hok := replyJobBranch_ok s.store id res j hp hf
  have hs1 : (applyReply s id res).store.finished id = some (finishedJob j res) := by
    simp [applyReply, hok]
  have hs1p : (applyReply s id res).store.pending id = none := by
    simp [applyReply, hok]
  have h2 := replyJobBranch_pending_none (applyReply s id res).store id res2 hs1p
  refine ⟨hs1, h2, ?_⟩
  rw [applyReply_error _ _ _ _ h2]
  exact hs1

/-- Witness for the amended C2: a concrete one-job store, finished by a
successful callback; the second callback errors at the load and the
finished record keeps the data of the first finish. -/
theorem C2_second_callback_witness :
    (applyReply sC2 1 SubMsgResult.ok).store.finished 1 =
      some (finishedJob
        { id := 1, owner := "bob", name := "j", condition := .and .nil,
          msgs := [], reward := 2, status := .pending, lastUpdateTime := 0 }
        SubMsgResult.ok) ∧
    replyJobBranch (applyReply sC2 1 SubMsgResult.ok).store 1
        (SubMsgResult.err ("boom")) =
      .error (.std ("pending_jobs not found")) ∧
    (applyReply (applyReply sC2 1 SubMsgResult.ok) 1
        (SubMsgResult.err ("boom"))).store.finished 1 =
      some (finishedJob
        { id := 1, owner := "bob", name := "j", condition := .and .nil,
          msgs := [], reward := 2, status := .pending, lastUpdateTime := 0 }
        SubMsgResult.ok) :=
  C2_second_callback sC2 1 SubMsgResult.ok (SubMsgResult.err ("boom")) _
    rfl rfl

/-- Claim C9: a job callback for an id that is pending and not yet
finished succeeds; the record inserted into the finished collection has
status Executed on a successful outcome and Failed on a failed one, every
other field identical to the pending entry, the id is removed from the
pending collection, and on failure the failure text is retained in the
response as the transaction_error attribute. -/
theorem C9_reply_frame (st : JobStore) (id : Nat) (res : SubMsgResult)
    (j : Job) (hp : st.pending id = some j) (hf : st.finished id = none) :
    ∃ st2 attrs, replyJobBranch st id res = .ok (st2, attrs) ∧
      st2.pending id = none ∧
      (∃ jf, st2.finished id = some jf ∧
        jf.id = j.id ∧ jf.owner = j.owner ∧ jf.name = j.name ∧
        jf.condition = j.condition ∧ jf.msgs = j.msgs ∧
        jf.reward = j.reward ∧ jf.lastUpdateTime = j.lastUpdateTime ∧
        jf.status = (match res with
          | .ok => JobStatus.executed
          | .err _ => JobStatus.failed)) ∧
      (∀ e, res = .err e → ("transaction_error", e) ∈ attrs) := by
  refine ⟨_, _, replyJobBranch_ok st id res j hp hf, by simp, ?_, ?_⟩
  · refine ⟨finishedJob j res, by simp, rfl, rfl, rfl, rfl, rfl, rfl, rfl, ?_⟩
    cases res <;> rfl
  · intro e he
    subst he
    simp [replyAttrs]

/-- Store of the C9 witness: job one pending with concrete field values. -/
def stC9 : JobStore :=
  { pending := fun i =>
      if i = 1 then
        some { id := 1, owner := "carol", name := "n", condition := .and .nil,
               msgs := [], reward := 3, status := .pending,
               lastUpdateTime := 7 }
      else none,
    finished := fun _ => none }

/-- Witness for C9 at a failed outcome with failure text. -/
theorem C9_reply_frame_witness :
    ∃ st2 attrs,
      replyJobBranch stC9 1 (SubMsgResult.err ("insufficient funds")) =
        .ok (st2, attrs) ∧
      st2.pending 1 = none ∧
      (∃ jf, st2.finished 1 = some jf ∧
        jf.id = 1 ∧ jf.owner = "carol" ∧ jf.name = "n" ∧
        jf.condition = Condition.and CondList.nil ∧ jf.msgs = ([] : List String) ∧
        jf.reward = 3 ∧ jf.lastUpdateTime = 7 ∧
        jf.status = (match SubMsgResult.err ("insufficient funds") with
          | .ok => JobStatus.executed
          | .err _ => JobStatus.failed)) ∧
      (∀ e, SubMsgResult.err ("insufficient funds") = SubMsgResult.err e →
        ("transaction_error", e) ∈ attrs) :=
  C9_reply_frame stC9 1 (SubMsgResult.err ("insufficient funds"))
    { id := 1, owner := "carol", name := "n", condition := .and .nil,
      msgs := [], reward := 3, status := .pending, lastUpdateTime := 7 }
    rfl rfl

/- ## Claim theorems: condition evaluator -/

/-- Concatenation of condition lists. -/
def CondList.append : CondList → CondList → CondList
  | .nil, ys => ys
  | .cons x xs, ys => .cons x (CondList.append xs ys)

/-- Every condition of the list evaluates to the given boolean. -/
def allOk (deps : Deps) (env : Env) (b : Bool) : CondList → Prop
  | .nil => True
  | .cons c cs => resolveCond deps env c = .ok b ∧ allOk deps env b cs

/-- The And loop returns false at the first false child, whatever follows
it, provided the children before it evaluated to true. -/
theorem resolveCondAnd_shortcircuit (deps : Deps) (env : Env)
    (post : CondList) (c : Condition)
    (hc : resolveCond deps env c = .ok false) :
    ∀ pre : CondList, allOk deps env true pre →
      resolveCondAnd deps env (CondList.append pre (.cons c post)) = .ok false
  | .nil, _ => by
    simp [CondList.append, resolveCondAnd, hc]
  | .cons x xs, hall => by
    have hx : resolveCond deps env x = .ok true := hall.1
    simp only [CondList.append, resolveCondAnd, hx]
    exact resolveCondAnd_shortcircuit deps env post c hc xs hall.2

/-- The Or loop returns true at the first true child, whatever follows it,
provided the children before it evaluated to false. -/
theorem resolveCondOr_shortcircuit (deps : Deps) (env : Env)
    (post : CondList) (c : Condition)
    (hc : resolveCond deps env c = .ok true) :
    ∀ pre : CondList, allOk deps env false pre →
      resolveCondOr deps env (CondList.append pre (.cons c post)) = .ok true
  | .nil, _ => by
    simp [CondList.append, resolveCondOr, hc]
  | .cons x xs, hall => by
    have hx : resolveCond deps env x = .ok false := hall.1
    simp only [CondList.append, resolveCondOr, hx]
    exact resolveCondOr_shortcircuit deps env post c hc xs hall.2

/-- Claim C3: condition evaluation short-circuits without surfacing later
errors. And returns Ok false as soon as some child evaluates to false,
the remaining children, erroring or not, never being evaluated; dually Or
returns Ok true as soon as some child evaluates to true. -/
theorem C3_short_circuit :
    (∀ (deps : Deps) (env : Env) (pre post : CondList) (c : Condition),
      allOk deps env true pre → resolveCond deps env c = .ok false →
      resolveCond deps env (.and (CondList.append pre (.cons c post))) =
        .ok false) ∧
    (∀ (deps : Deps) (env : Env) (pre post : CondList) (c : Condition),
      allOk deps env false pre → resolveCond deps env c = .ok true →
      resolveCond deps env (.or (CondList.append pre (.cons c post))) =
        .ok true) := by
  constructor
  · intro deps env pre post c hall hc
    have h := resolveCondAnd_shortcircuit deps env post c hc pre hall
    simpa [resolveCond] using h
  · intro deps env pre post c hall hc
    have h := resolveCondOr_shortcircuit deps env post c hc pre hall
    simpa [resolveCond] using h

/-- Dependencies of the C3 witness: the host channel reports a system
error, so any query condition fails. -/
def depsC3 : Deps :=
  { rawQuery := fun _ => .sysErr "x", decodeJson := fun _ => .ok .null }

/-- Environment of the C3 witness: height zero. -/
def envC3 : Env := { time := 0, height := 0 }

/-- C3 witness condition that evaluates to false: height greater than 100
at height zero. -/
def cFalseC3 : Condition := .expr (.blockheight { comparator := 100, op := .gt })

/-- C3 witness condition that evaluates to true: height less than 100 at
height zero. -/
def cTrueC3 : Condition := .expr (.blockheight { comparator := 100, op := .lt })

/-- C3 witness condition whose evaluation errors: a boolean query over the
failing channel. -/
def cErrC3 : Condition := .expr (.bool { query := "q", selector := [] })

/-- Witness for C3: And of a false condition followed by an erroring one
resolves to Ok false, Or of a true condition followed by the erroring one
resolves to Ok true, while the erroring condition alone returns the
channel error. -/
theorem C3_short_circuit_witness :
    resolveCond depsC3 envC3
      (.and (CondList.append .nil (.cons cFalseC3 (.cons cErrC3 .nil)))) =
      .ok false ∧
    resolveCond depsC3 envC3
      (.or (CondList.append .nil (.cons cTrueC3 (.cons cErrC3 .nil)))) =
      .ok true ∧
    resolveCond depsC3 envC3 cErrC3 =
      .error (.err (.std ("Querier system error: x"))) :=
  ⟨C3_short_circuit.1 depsC3 envC3 .nil (.cons cErrC3 .nil) cFalseC3
      trivial rfl,
   C3_short_circuit.2 depsC3 envC3 .nil (.cons cErrC3 .nil) cTrueC3
      trivial rfl,
   rfl⟩

/-- Claim C8: And of the empty list resolves to Ok true, Or of the empty
list resolves to Ok false, and double negation resolves identically to
the inner condition, errors included. -/
theorem C8_cond_algebra :
    (∀ (deps : Deps) (env : Env),
      resolveCond deps env (.and .nil) = .ok true) ∧
    (∀ (deps : Deps) (env : Env),
      resolveCond deps env (.or .nil) = .ok false) ∧
    (∀ (deps : Deps) (env : Env) (c : Condition),
      resolveCond deps env (.not (.not c)) = resolveCond deps env c) := by
  refine ⟨fun _ _ => rfl, fun _ _ => rfl, fun deps env c => ?_⟩
  cases h : resolveCond deps env c with
  | ok b => simp [resolveCond, h]
  | error e => simp [resolveCond, h]

/- ## Claim theorems: numeric evaluator -/

/-- Dependencies of the C4 theorems (no query node is evaluated). -/
def depsC4 : Deps :=
  { rawQuery := fun _ => .sysErr "x", decodeJson := fun _ => .ok .null }

/-- Environment of the C4 theorems. -/
def envC4 : Env := { time := 0, height := 0 }

/-- Counterexample for C4: Neg over the unsigned domains returns zero, not
domain-max minus the operand, because zero saturating-minus one is zero
and multiplying by it annihilates; shown at operand one (Uint256) and at
operand one unit (Decimal256). -/
theorem C4_counterexample :
    resolveNumFnUint depsC4 envC4 .neg (.simple 1) = .ok 0 ∧
    resolveNumFnUint depsC4 envC4 .neg (.simple 1) ≠ .ok (UMAXv - 1) ∧
    resolveNumFnDecimal depsC4 envC4 .neg (.simple DEC_ONE) = .ok 0 ∧
    resolveNumFnDecimal depsC4 envC4 .neg (.simple DEC_ONE) ≠
      .ok (UMAXv - DEC_ONE) := by
  refine ⟨rfl, ?_, rfl, ?_⟩
  · rw [show resolveNumFnUint depsC4 envC4 .neg (.simple 1) = Except.ok 0
      from rfl]
    intro h
    exact absurd (Except.ok.inj h) (by decide)
  · rw [show resolveNumFnDecimal depsC4 envC4 .neg (.simple DEC_ONE) =
      Except.ok 0 from rfl]
    intro h
    exact absurd (Except.ok.inj h) (by decide)

/-- Claim C4 (amended): over the unsigned domains, Abs is the identity
(absolute difference from zero) and Neg returns zero for every operand,
since it multiplies the operand by the saturating difference zero minus
one, which is zero. -/
theorem C4_unsigned_abs_neg :
    (∀ (deps : Deps) (env : Env) (v : Nat),
      resolveNumFnUint deps env .abs (.simple v) = .ok v ∧
      resolveNumFnUint deps env .neg (.simple v) = .ok 0) ∧
    (∀ (deps : Deps) (env : Env) (v : Nat),
      resolveNumFnDecimal deps env .abs (.simple v) = .ok v ∧
      resolveNumFnDecimal deps env .neg (.simple v) = .ok 0) := by
  constructor
  · intro deps env v
    constructor
    · simp [resolveNumFnUint, resolveNumValueUint, uabsDiff]
    · simp [resolveNumFnUint, resolveNumValueUint, usatMul, usatSub, clampU]
  · intro deps env v
    constructor
    · simp [resolveNumFnDecimal, resolveNumValueDecimal, dabsDiff]
    · simp [resolveNumFnDecimal, resolveNumValueDecimal, dsatMul, dsatSub,
        clampU]

/-- Dependencies of the C5 theorems. -/
def depsC5 : Deps :=
  { rawQuery := fun _ => .sysErr "x", decodeJson := fun _ => .ok .null }

/-- Environment of the C5 theorems. -/
def envC5 : Env := { time := 0, height := 0 }

/-- Counterexample for C5: in the signed domain a nonzero divisor does not
guarantee a checked quotient; dividing the minimum by minus one overflows
the checked operation and the unwrap faults, for Div and for Mod. -/
theorem C5_counterexample :
    (-1 : Int) ≠ 0 ∧
    resolveNumExprInt depsC5 envC5 (.simple IMINv) .div (.simple (-1)) =
      .error .panic ∧
    resolveNumExprInt depsC5 envC5 (.simple IMINv) .mod (.simple (-1)) =
      .error .panic :=
  ⟨by decide, rfl, rfl⟩

/-- Claim C5 (amended): Div and Mod evaluate the checked quotient or
remainder without error for a nonzero divisor, except where the checked
operation itself has no representable result (signed minimum over minus
one; a decimal quotient exceeding the domain maximum), which faults like
a zero divisor does; no typed error is ever returned. -/
theorem C5_checked_div_mod :
    (∀ (deps : Deps) (env : Env) (l r : Int), r ≠ 0 →
      ¬(l = IMINv ∧ r = -1) →
      resolveNumExprInt deps env (.simple l) .div (.simple r) =
        .ok (l.tdiv r) ∧
      resolveNumExprInt deps env (.simple l) .mod (.simple r) =
        .ok (l.tmod r)) ∧
    (∀ (deps : Deps) (env : Env) (l : Int),
      resolveNumExprInt deps env (.simple l) .div (.simple 0) =
        .error .panic ∧
      resolveNumExprInt deps env (.simple l) .mod (.simple 0) =
        .error .panic) ∧
    (∀ (deps : Deps) (env : Env) (l r : Nat), r ≠ 0 →
      resolveNumExprUint deps env (.simple l) .div (.simple r) =
        .ok (l / r) ∧
      resolveNumExprUint deps env (.simple l) .mod (.simple r) =
        .ok (l % r)) ∧
    (∀ (deps : Deps) (env : Env) (l : Nat),
      resolveNumExprUint deps env (.simple l) .div (.simple 0) =
        .error .panic ∧
      resolveNumExprUint deps env (.simple l) .mod (.simple 0) =
        .error .panic) ∧
    (∀ (deps : Deps) (env : Env) (l r : Nat), r ≠ 0 →
      l * DEC_ONE / r ≤ UMAXv →
      resolveNumExprDecimal deps env (.simple l) .div (.simple r) =
        .ok (l * DEC_ONE / r)) ∧
    (∀ (deps : Deps) (env : Env) (l r : Nat), r ≠ 0 →
      resolveNumExprDecimal deps env (.simple l) .mod (.simple r) =
        .ok (l % r)) ∧
    (∀ (deps : Deps) (env : Env) (l r : Nat), r ≠ 0 →
      UMAXv < l * DEC_ONE / r →
      resolveNumExprDecimal deps env (.simple l) .div (.simple r) =
        .error .panic) ∧
    (∀ (deps : Deps) (env : Env) (l : Nat),
      resolveNumExprDecimal deps env (.simple l) .div (.simple 0) =
        .error .panic ∧
      resolveNumExprDecimal deps env (.simple l) .mod (.simple 0) =
        .error .panic) := by
  refine ⟨?_, ?_, ?_, ?_, ?_, ?_, ?_, ?_⟩
  · intro deps env l r hr hlr
    constructor <;>
      simp [resolveNumExprInt, resolveNumValueInt, icheckedDiv, icheckedRem,
        unwrapRes, hr, hlr]
  · intro deps env l
    constructor <;>
      simp [resolveNumExprInt, resolveNumValueInt, icheckedDiv, icheckedRem,
        unwrapRes]
  · intro deps env l r hr
    constructor <;>
      simp [resolveNumExprUint, resolveNumValueUint, ucheckedDiv, ucheckedRem,
        unwrapRes, hr]
  · intro deps env l
    constructor <;>
      simp [resolveNumExprUint, resolveNumValueUint, ucheckedDiv, ucheckedRem,
        unwrapRes]
  · intro deps env l r hr hq
    simp [resolveNumExprDecimal, resolveNumValueDecimal, dcheckedDiv,
      unwrapRes, hr, hq]
  · intro deps env l r hr
    simp [resolveNumExprDecimal, resolveNumValueDecimal, dcheckedRem,
      unwrapRes, hr]
  · intro deps env l r hr hq
    simp [resolveNumExprDecimal, resolveNumValueDecimal, dcheckedDiv,
      unwrapRes, hr, Nat.not_le.mpr hq]
  · intro deps env l
    constructor <;>
      simp [resolveNumExprDecimal, resolveNumValueDecimal, dcheckedDiv,
        dcheckedRem, unwrapRes]

/-- Witness for the amended C5: seven over two in the signed domain gives
the truncated quotient three, seven modulo four in the unsigned domain
gives three. -/
theorem C5_checked_div_mod_witness :
    resolveNumExprInt depsC5 envC5 (.simple 7) .div (.simple 2) =
      .ok (Int.tdiv 7 2) ∧
    resolveNumExprUint depsC5 envC5 (.simple 7) .mod (.simple 4) =
      .ok (7 % 4) :=
  ⟨(C5_checked_div_mod.1 depsC5 envC5 7 2 (by decide) (by decide)).1,
   (C5_checked_div_mod.2.2.1 depsC5 envC5 7 4 (by decide)).2⟩

/-- Claim C6: Add, Sub and Mul never fault and never return an error in
any of the three domains; the result is the exact value clamped to the
domain range, which always lies within the domain bounds. -/
theorem C6_saturating_total :
    (∀ z : Int, IMINv ≤ clampI z ∧ clampI z ≤ IMAXv) ∧
    (∀ (deps : Deps) (env : Env) (l r : Int),
      resolveNumExprInt deps env (.simple l) .add (.simple r) =
        .ok (clampI (l + r)) ∧
      resolveNumExprInt deps env (.simple l) .sub (.simple r) =
        .ok (clampI (l - r)) ∧
      resolveNumExprInt deps env (.simple l) .mul (.simple r) =
        .ok (clampI (l * r))) ∧
    (∀ n : Nat, clampU n ≤ UMAXv) ∧
    (∀ (deps : Deps) (env : Env) (l r : Nat),
      resolveNumExprUint deps env (.simple l) .add (.simple r) =
        .ok (clampU (l + r)) ∧
      resolveNumExprUint deps env (.simple l) .sub (.simple r) =
        .ok (l - r) ∧
      resolveNumExprUint deps env (.simple l) .mul (.simple r) =
        .ok (clampU (l * r))) ∧
    (∀ (deps : Deps) (env : Env) (l r : Nat),
      resolveNumExprDecimal deps env (.simple l) .add (.simple r) =
        .ok (clampU (l + r)) ∧
      resolveNumExprDecimal deps env (.simple l) .sub (.simple r) =
        .ok (l - r) ∧
      resolveNumExprDecimal deps env (.simple l) .mul (.simple r) =
        .ok (clampU (l * r / DEC_ONE))) := by
  refine ⟨?_, fun _ _ _ _ => ⟨rfl, rfl, rfl⟩, fun _ => min_le_right _ _,
    fun _ _ _ _ => ⟨rfl, rfl, rfl⟩, fun _ _ _ _ => ⟨rfl, rfl, rfl⟩⟩
  intro z
  exact ⟨le_max_left _ _, max_le (by decide) (min_le_right _ _)⟩

/-- Dependencies of the C7 theorem whose document decodes to a number. -/
def depsC7num : Deps :=
  { rawQuery := fun _ => .ok "p", decodeJson := fun _ => .ok (.num 5) }

/-- Dependencies of the C7 theorem whose document decodes to a boolean. -/
def depsC7bool : Deps :=
  { rawQuery := fun _ => .ok "p", decodeJson := fun _ => .ok (.bool true) }

/-- Environment of the C7 theorem. -/
def envC7 : Env := { time := 0, height := 0 }

/-- Query of the C7 theorem: empty selector, the document root is the
leaf. -/
def qC7 : QueryExpr := { query := "q", selector := [] }

/-- Claim C7 at the failing input: with a successful query and a resolved
path, a leaf type mismatch yields DecodeError in the bool, string, int
and uint resolvers but Unauthorized in the decimal resolver, breaking the
claimed uniformity. -/
theorem C7_decimal_resolver_error :
    resolveQueryExprBool depsC7num envC7 qC7 = .error .decodeError ∧
    resolveQueryExprString depsC7num envC7 qC7 = .error .decodeError ∧
    resolveQueryExprInt depsC7bool envC7 qC7 = .error .decodeError ∧
    resolveQueryExprUint depsC7num envC7 qC7 = .error .decodeError ∧
    resolveQueryExprDecimal depsC7num envC7 qC7 = .error .unauthorized ∧
    ContractError.unauthorized ≠ ContractError.decodeError :=
  ⟨rfl, rfl, rfl, rfl, rfl, by decide⟩

/-- Dependencies of the C10 theorems. -/
def depsC10 : Deps :=
  { rawQuery := fun _ => .sysErr "x", decodeJson := fun _ => .ok .null }

/-- Environment of the C10 theorems. -/
def envC10 : Env := { time := 0, height := 0 }

/-- Claim C10: Abs in the signed domain is total only away from the
domain minimum: any other value returns its absolute value, the minimum
faults (overflow of abs), while Neg at the minimum saturates to the
maximum instead of faulting. -/
theorem C10_int_abs_overflow :
    (∀ (deps : Deps) (env : Env) (v : Int), IMINv ≤ v → v ≤ IMAXv →
      v ≠ IMINv →
      resolveNumFnInt deps env .abs (.simple v) = .ok |v|) ∧
    (∀ (deps : Deps) (env : Env),
      resolveNumFnInt deps env .abs (.simple IMINv) = .error .panic) ∧
    (∀ (deps : Deps) (env : Env),
      resolveNumFnInt deps env .neg (.simple IMINv) = .ok IMAXv) := by
  refine ⟨?_, ?_, ?_⟩
  · intro deps env v _ _ h3
    simp [resolveNumFnInt, resolveNumValueInt, iabs, h3]
  · intro deps env
    simp [resolveNumFnInt, resolveNumValueInt, iabs]
  · intro deps env
    have h : isatMul IMINv (-1) = IMAXv := by decide
    simp [resolveNumFnInt, resolveNumValueInt, h]

/-- Witness for C10 at operand minus five: Abs returns five. -/
theorem C10_int_abs_overflow_witness :
    resolveNumFnInt depsC10 envC10 .abs (.simple (-5)) = .ok 5 := by
  have h := C10_int_abs_overflow.1 depsC10 envC10 (-5) (by decide) (by decide)
    (by decide)
  simpa using h

end Warp
